import Mathlib

/-!
Verification of the receipt-reconciliation core (normalize / match / diagnose)
against its natural-language specification.

The Python sources are shallowly embedded: floats are modelled as exact
rationals (`ℚ`), Python `int` as `ℤ`, fallible operations as `Except`.
Each definition mirrors one function of `normalize.py`, `match.py`,
`diagnose.py` or `models.py`; doc comments name the source function.
-/

namespace Recon

/-! ### Rounding and numeric helpers

Python's `round(x, n)` uses round-half-to-even.  On exact rationals this is
modelled by `rnd n`; `round1`/`round2` are the two instances the sources use.
-/

/-- Round a rational to the nearest integer, ties to even (Python `round`). -/
def roundHalfEven (x : ℚ) : ℤ :=
  if x - ⌊x⌋ < 1/2 then ⌊x⌋
  else if x - ⌊x⌋ > 1/2 then ⌊x⌋ + 1
  else if ⌊x⌋ % 2 = 0 then ⌊x⌋ else ⌊x⌋ + 1

/-- Python `round(x, n)` on an exact rational. -/
def rnd (n : ℕ) (x : ℚ) : ℚ :=
  (roundHalfEven (x * (10 : ℚ) ^ n) : ℚ) / (10 : ℚ) ^ n

/-- Source `round(x, 1)` -/
def round1 (x : ℚ) : ℚ := rnd 1 x

/-- Source `round(x, 2)` -/
def round2 (x : ℚ) : ℚ := rnd 2 x

/-- Python `int(x)` on a float value: truncation toward zero. -/
def pyTrunc (x : ℚ) : ℤ := if 0 ≤ x then ⌊x⌋ else ⌈x⌉

/-! ### Python string primitives

All string manipulation is done with structurally-recursive character-list
functions (core's byte-position-based `String` operations are avoided).
-/

/-- Python whitespace for `str.strip` / `\s`. -/
def isPyWs (c : Char) : Bool :=
  c = ' ' || c = '\t' || c = '\n' || c = '\r' || c = '\x0b' || c = '\x0c'

/-- Python `str.strip()` on a character list. -/
def stripWsL (l : List Char) : List Char :=
  ((l.dropWhile isPyWs).reverse.dropWhile isPyWs).reverse

/-- Python `str.strip()`. -/
def pyStrip (s : String) : String := String.mk (stripWsL s.toList)

/-- Split a character list at every separator, keeping empty pieces
(the semantics of Python `str.split(sep)`). -/
def splitChars (p : Char → Bool) : List Char → List (List Char)
  | [] => [[]]
  | c :: rest =>
    if p c then [] :: splitChars p rest
    else
      match splitChars p rest with
      | w :: ws => (c :: w) :: ws
      | [] => [[c]]

/-- Python `str.split()` (split on whitespace runs, dropping empties). -/
def pySplitWs (s : String) : List String :=
  ((splitChars isPyWs s.toList).map String.mk).filter (· ≠ "")

/-! ### Python string-to-number parsing

Models CPython `float(s)` / `int(s)` on the decimal forms this repository
feeds them (optional sign, digits, one decimal point; exponent notation and
`inf`/`nan` literals are not modelled — `normalize_amount` maps the latter to
`0.0` through its non-finite check, which coincides with a parse failure here).
-/

/-- Value of a digit string, most significant first. -/
def digitsToNat (l : List Char) : ℕ :=
  l.foldl (fun a c => a * 10 + (c.toNat - 48)) 0

/-- CPython `float(s)`: `none` models a raised `ValueError`. -/
def pyFloat? (s : String) : Option ℚ :=
  let cs := stripWsL s.toList
  let sgn : ℚ := match cs with
    | '-' :: _ => -1
    | _ => 1
  let rest := match cs with
    | '-' :: r => r
    | '+' :: r => r
    | r => r
  let intPart := rest.takeWhile Char.isDigit
  let rest2 := rest.dropWhile Char.isDigit
  match rest2 with
  | [] => if intPart.isEmpty then none else some (sgn * digitsToNat intPart)
  | '.' :: frac =>
      if frac.all Char.isDigit && !(intPart.isEmpty && frac.isEmpty) then
        some (sgn * ((digitsToNat intPart : ℚ) +
          (digitsToNat frac : ℚ) / (10 : ℚ) ^ frac.length))
      else none
  | _ => none

/-- CPython `int(s)`: `none` models a raised `ValueError`. -/
def pyInt? (s : String) : Option ℤ :=
  let cs := stripWsL s.toList
  let (sgn, rest) : ℤ × List Char := match cs with
    | '-' :: r => (-1, r)
    | '+' :: r => (1, r)
    | r => (1, r)
  if rest.isEmpty || !rest.all Char.isDigit then none
  else some (sgn * digitsToNat rest)

/-! ### `normalize.py` — `normalize_amount` -/

/-- The dynamic inputs `normalize_amount` receives in this repository:
a finite number, a non-finite float (`nan`/`inf`), a string, or
`None`/pandas-NA. -/
inductive AmountInput where
  | num (q : ℚ)
  | nonFinite
  | str (s : String)
  | noneV
deriving DecidableEq, Repr

/-- Null tokens rejected by `normalize_amount` and `normalize_date`. -/
def nullTokens : List String := ["n/a", "na", "none", "null", "unknown"]

/-- ASCII lower-casing (`str.lower` on the ASCII fragment). -/
def asciiLower (s : String) : String :=
  String.mk (s.toList.map Char.toLower)

/-- Python `pattern in text` on character lists. -/
def isInfixB (p : List Char) : List Char → Bool
  | [] => p.isEmpty
  | c :: rest => p.isPrefixOf (c :: rest) || isInfixB p rest

/-- String arm of `normalize.py:normalize_amount` (lines 242-300). -/
def normalizeAmountStr (s : String) : ℚ :=
  let cleaned := pyStrip s
  if cleaned = "" then 0
  else if asciiLower cleaned ∈ nullTokens then 0
  else
    let isNegative :=
      ("-".toList.isPrefixOf cleaned.toList) ||
      ("(".toList.isPrefixOf cleaned.toList && ")".toList.isSuffixOf cleaned.toList) ||
      (isInfixB "-$".toList cleaned.toList) ||
      (isInfixB "$-".toList cleaned.toList)
    let stripped := String.mk (cleaned.toList.filter
      (fun c => !(c ∈ ['$', '€', '£', '¥', '(', ')', ','])))
    let stripped := pyStrip stripped
    if stripped = "" then 0
    else
      match pyFloat? stripped with
      | none => 0
      | some v => if isNegative || v < 0 then 0 else round2 v

/-- Source `normalize.py:normalize_amount`: non-negative 2-decimal float, degrading
to `0.0` on `None`, non-finite, negative, or unparseable input. -/
def normalize_amount : AmountInput → ℚ
  | .noneV => 0
  | .nonFinite => 0
  | .num q => if q < 0 then 0 else round2 q
  | .str s => normalizeAmountStr s

/-! ### `normalize.py` — `normalize_vendor`

ASCII fragment of the source function: Unicode NFD decomposition followed by
stripping of combining marks (category Mn) is the identity on ASCII text, so
that step drops out; `str.lower` is modelled by ASCII lower-casing.
-/

/-- Source `re.sub(r"\s+", " ", s).strip()`. -/
def collapseWs (s : String) : String :=
  " ".intercalate (pySplitWs s)

/-- Source `normalize.py:VENDOR_ALIASES`, in dict insertion order. -/
def VENDOR_ALIASES : List (String × String) :=
  [("amzn", "amazon"), ("amzn mktp", "amazon"), ("amazon.com", "amazon"),
   ("wmt", "walmart"), ("wal-mart", "walmart"), ("walmart.com", "walmart"),
   ("sbux", "starbucks"), ("starbux", "starbucks"),
   ("hd supply", "home depot"), ("the home depot", "home depot"),
   ("homedepot", "home depot"),
   ("costco whse", "costco"), ("costco wholesale", "costco"),
   ("tgt", "target"), ("target.com", "target"),
   ("chick-fil-a", "chick fil a"),
   ("mcd", "mcdonalds"), ("mcdonald's", "mcdonalds")]

/-- Source `normalize.py:STRIP_SUFFIXES`. -/
def STRIP_SUFFIXES : List String :=
  ["inc", "llc", "corp", "ltd", "co", "company", "restaurant", "rest",
   "rstrt", "store", "stores", "services", "service", "svc"]

/-- Source `normalize.py:PROCESSOR_PREFIXES`. -/
def PROCESSOR_PREFIXES : List String :=
  ["sq *", "sq*", "pp*", "pp *", "tst*", "tst *", "grub*", "dd *", "ue *"]

/-- Stable insertion (descending by `key`): `x` goes before every element
whose key is not greater, so earlier elements win ties. -/
def insertDesc {α β : Type} [LinearOrder β] (key : α → β) (x : α) :
    List α → List α
  | [] => [x]
  | y :: ys => if key x < key y then y :: insertDesc key x ys else x :: y :: ys

/-- Stable descending sort by `key` (models Python's stable `list.sort`). -/
def sortDesc {α β : Type} [LinearOrder β] (key : α → β) : List α → List α
  | [] => []
  | x :: xs => insertDesc key x (sortDesc key xs)

/-- Source `re.sub(r"[^a-z0-9\s]", "", ·)` used to clean alias keys. -/
def cleanAliasChars (s : String) : String :=
  String.mk (s.toList.filter
    (fun c => (c.isLower && c.isAlpha) || c.isDigit || isPyWs c))

/-- The normalized alias table of `normalize_vendor` (lines 127-133):
cleaned keys, empties dropped, stably sorted longest-first. -/
def normalizedAliases : List (String × String) :=
  sortDesc (fun p : String × String => p.1.length)
    ((VENDOR_ALIASES.map
      (fun p => (collapseWs (cleanAliasChars (asciiLower (pyStrip p.1))), p.2))).filter
      (fun p => p.1 ≠ ""))

/-- Source `re.sub(r"#\s*\d+", "", ·)`: drop store-number patterns, scanning
left to right over non-overlapping matches.  Fueled by the list length so the
recursion is structural (the drop-digits step consumes a suffix). -/
def removeStoreNumsGo : ℕ → List Char → List Char
  | 0, l => l
  | _ + 1, [] => []
  | fuel + 1, c :: rest =>
    if c = '#' then
      let after := rest.dropWhile isPyWs
      if (after.takeWhile Char.isDigit).isEmpty then
        '#' :: removeStoreNumsGo fuel rest
      else
        removeStoreNumsGo fuel (after.dropWhile Char.isDigit)
    else
      c :: removeStoreNumsGo fuel rest

/-- Entry point of the store-number scrubber with sufficient fuel. -/
def removeStoreNums (l : List Char) : List Char :=
  removeStoreNumsGo l.length l

/-- First matching payment-processor tag is stripped (lines 109-112). -/
def stripProcessorCode (l : List Char) : List Char :=
  match PROCESSOR_PREFIXES.find? (fun p => p.toList.isPrefixOf l) with
  | some p => stripWsL (l.drop p.toList.length)
  | none => l

/-- Pop trailing corporate-suffix words (lines 122-125). -/
def stripSuffixWords (ws : List String) : List String :=
  (go ws.reverse).reverse
where
  go : List String → List String
    | [] => []
    | w :: rest => if w ∈ STRIP_SUFFIXES then go rest else w :: rest

/-- The three alias passes: exact, prefix, substring-contains (lines 135-148). -/
def applyAliases (name : String) : String :=
  match normalizedAliases.find? (fun p => p.1 = name) with
  | some p => p.2
  | none =>
    match normalizedAliases.find? (fun p => p.1.toList.isPrefixOf name.toList) with
    | some p => p.2
    | none =>
      match normalizedAliases.find? (fun p => isInfixB p.1.toList name.toList) with
      | some p => p.2
      | none => name

/-- Source `normalize.py:normalize_vendor` on the ASCII fragment: lower-case and
strip, drop processor prefixes, truncate at `*`, drop store numbers and
punctuation, strip corporate suffixes, resolve aliases, collapse whitespace. -/
def normalize_vendor (vendor : Option String) : String :=
  match vendor with
  | none => ""
  | some v =>
    if pyStrip v = "" then ""
    else
      let name := (pyStrip (asciiLower v)).toList
      let name := stripProcessorCode name
      let name := if name.contains '*' then stripWsL (name.takeWhile (· ≠ '*')) else name
      let name := removeStoreNums name
      let name := name.filter (fun c => c.isAlphanum || c = '_' || isPyWs c)
      let name := name.map (fun c => if c = '_' then ' ' else c)
      let words := pySplitWs (String.mk name)
      let name := " ".intercalate (stripSuffixWords words)
      let name := applyAliases name
      collapseWs name

/-! ### `match.py` — scoring functions -/

/-- Longest common subsequence length, fueled by the combined length so the
recursion is structural. -/
def lcsGo : ℕ → List Char → List Char → ℕ
  | 0, _, _ => 0
  | _ + 1, [], _ => 0
  | _ + 1, _ :: _, [] => 0
  | fuel + 1, a :: as, b :: bs =>
    if a = b then lcsGo fuel as bs + 1
    else max (lcsGo fuel (a :: as) bs) (lcsGo fuel as (b :: bs))

/-- Longest common subsequence length. -/
def lcs (a b : List Char) : ℕ :=
  lcsGo (a.length + b.length) a b

/-- Source `rapidfuzz.fuzz.ratio` (third-party): normalized indel similarity,
`2·LCS(a,b) / (|a|+|b|) · 100`. -/
def fuzzRatio (a b : String) : ℚ :=
  let la := a.toList.length
  let lb := b.toList.length
  if la + lb = 0 then 100
  else (2 * (lcs a.toList b.toList : ℚ) / ((la : ℚ) + lb)) * 100

/-- Source `match.py:score_vendor` — `(score, evidence)`. -/
def score_vendor (receipt_vendor transaction_merchant : String) : ℚ × String :=
  let rv := normalize_vendor (some receipt_vendor)
  let tm := normalize_vendor (some transaction_merchant)
  if rv = "" && tm = "" then
    (0, "Both vendor names are empty - cannot compare")
  else if rv = "" then
    (0, s!"Receipt vendor name is empty (bank: '{tm}')")
  else if tm = "" then
    (0, s!"Bank merchant name is empty (receipt: '{rv}')")
  else if rv = tm then
    (100, s!"Vendor names match exactly: '{rv}'")
  else
    let score := round1 (fuzzRatio rv tm)
    let score := max 0 (min 100 score)
    let evidence :=
      if score ≥ 95 then s!"Vendor names match: '{rv}' ~ '{tm}' (score: {score})"
      else if score ≥ 80 then s!"Vendor names similar: '{rv}' ~ '{tm}' (score: {score})"
      else if score ≥ 60 then s!"Vendor names differ: '{rv}' vs '{tm}' (score: {score})"
      else if score ≥ 40 then s!"Vendor names weakly similar: '{rv}' vs '{tm}' (score: {score})"
      else s!"Vendor names unrelated: '{rv}' vs '{tm}' (score: {score})"
    (score, evidence)

/-- Source `match.py:score_amount` — `(score, abs_diff, pct_diff, evidence)`. -/
def score_amount (receipt_total transaction_amount : ℚ) : ℚ × ℚ × ℚ × String :=
  let receipt_value := normalize_amount (.num receipt_total)
  let txn_value := normalize_amount (.num transaction_amount)
  if receipt_value ≤ 0 then
    (0, round2 |txn_value|, 100,
      s!"Receipt total is $0.00 - cannot compute amount proximity (bank: ${txn_value})")
  else
    let abs_diff := round2 |receipt_value - txn_value|
    let pct_diff := round1 (abs_diff / receipt_value * 100)
    let score := max 0 (1 - (abs_diff / receipt_value) / (1/4)) * 100
    let score := round1 (min 100 score)
    let evidence :=
      if abs_diff = 0 then s!"Exact amount match: ${receipt_value}"
      else if pct_diff ≤ 2 then
        s!"Amount very close: ${receipt_value} vs ${txn_value} (diff: ${abs_diff}, {pct_diff}%)"
      else if pct_diff ≤ 10 then
        s!"Amount close: ${receipt_value} vs ${txn_value} (diff: ${abs_diff}, {pct_diff}%)"
      else if pct_diff ≤ 25 then
        s!"Amount differs: ${receipt_value} vs ${txn_value} (diff: ${abs_diff}, {pct_diff}%)"
      else
        s!"Amount significantly different: ${receipt_value} vs ${txn_value} (diff: ${abs_diff}, {pct_diff}%)"
    (score, abs_diff, pct_diff, evidence)

/-! ### `normalize.py` — `normalize_date` and calendar arithmetic -/

/-- Days in a month of the proleptic Gregorian calendar. -/
def daysInMonth (y : ℤ) (m : ℕ) : ℕ :=
  if m = 2 then
    if y % 4 = 0 && (y % 100 ≠ 0 || y % 400 = 0) then 29 else 28
  else if m ∈ [4, 6, 9, 11] then 30
  else 31

/-- Day count of a civil date (days since 1970-01-01, Gregorian). -/
def daysFromCivil (y : ℤ) (m d : ℕ) : ℤ :=
  let y' : ℤ := if (m : ℤ) ≤ 2 then y - 1 else y
  let era : ℤ := (if 0 ≤ y' then y' else y' - 399) / 400
  let yoe : ℤ := y' - era * 400
  let mp : ℤ := ((m : ℤ) + 9) % 12
  let doy : ℤ := (153 * mp + 2) / 5 + (d : ℤ) - 1
  let doe : ℤ := yoe * 365 + yoe / 4 - yoe / 100 + doy
  era * 146097 + doe - 719468

/-- Models the `dateutil` parser collaborator (third-party, not part of this
repository) on the numeric, four-digit-year, month-first date formats the
repository's data exercises (`YYYY-MM-DD`, `YYYY/MM/DD`, `M/D/YYYY`,
`M-D-YYYY`, with dateutil's large-first-component day/month swap); text
months, two-digit years and partial dates parse to `none` here. -/
def dateutilParse? (s : String) : Option (ℤ × ℕ × ℕ) :=
  let bySep (sep : Char) : Option (ℤ × ℕ × ℕ) :=
    match splitChars (· = sep) s.toList with
    | [p1, p2, p3] =>
      if p1 ≠ [] && p2 ≠ [] && p3 ≠ [] &&
         p1.all Char.isDigit && p2.all Char.isDigit && p3.all Char.isDigit then
        if p1.length = 4 then
          some ((digitsToNat p1 : ℤ), digitsToNat p2, digitsToNat p3)
        else if p3.length = 4 then
          let a := digitsToNat p1
          let b := digitsToNat p2
          if a > 12 && b ≤ 12 then some ((digitsToNat p3 : ℤ), b, a)
          else some ((digitsToNat p3 : ℤ), a, b)
        else none
      else none
    | _ => none
  let candidate :=
    if s.toList.contains '/' then bySep '/'
    else if s.toList.contains '-' then bySep '-'
    else none
  match candidate with
  | some (y, m, d) =>
    if 1 ≤ m && m ≤ 12 && 1 ≤ d && d ≤ daysInMonth y m then some (y, m, d)
    else none
  | none => none

/-- Zero-padded decimal rendering. -/
def padNum (width : ℕ) (n : ℕ) : String :=
  let s := toString n
  String.mk (List.replicate (width - s.length) '0') ++ s

/-- Source `strftime("%Y-%m-%d")` for non-negative years. -/
def formatISO (y : ℤ) (m d : ℕ) : String :=
  padNum 4 y.toNat ++ "-" ++ padNum 2 m ++ "-" ++ padNum 2 d

/-- Full match of one or two digits, a slash or dash, then two to four
digits ("MM/YY"-shaped, source pattern at `normalize.py:182`). -/
def isMonthYearShaped (l : List Char) : Bool :=
  let d1 := l.takeWhile Char.isDigit
  let rest := l.dropWhile Char.isDigit
  (1 ≤ d1.length && d1.length ≤ 2) &&
  match rest with
  | c :: rest2 =>
    (c = '/' || c = '-') && rest2.all Char.isDigit &&
    2 ≤ rest2.length && rest2.length ≤ 4
  | [] => false

/-- Source `[A-Za-z]{3,9}\s+\d{4}` full match ("Month YYYY"-shaped). -/
def isMonthNameYearShaped (l : List Char) : Bool :=
  let letters := l.takeWhile (fun c => c.isAlpha)
  let rest := l.dropWhile (fun c => c.isAlpha)
  (3 ≤ letters.length && letters.length ≤ 9) &&
  let ws := rest.takeWhile isPyWs
  let ds := rest.dropWhile isPyWs
  1 ≤ ws.length && ds.length = 4 && ds.all Char.isDigit

/-- Source `normalize.py:normalize_date`: reject ambiguous shapes and null tokens,
else parse permissively to ISO `YYYY-MM-DD`; empty string on failure. -/
def normalize_date (date : Option String) : String :=
  match date with
  | none => ""
  | some s0 =>
    let s := pyStrip s0
    if s = "" then ""
    else if s.toList.all (fun c => !c.isDigit) then ""
    else if asciiLower s ∈ nullTokens then ""
    else
      let l := s.toList
      if l.length = 4 && l.all Char.isDigit then ""
      else if l ≠ [] && l.all Char.isDigit then ""
      else if isMonthYearShaped l then ""
      else if isMonthNameYearShaped l then ""
      else
        match dateutilParse? s with
        | some (y, m, d) => formatISO y m d
        | none => ""

/-- Source `strptime(s, "%Y-%m-%d")`: strict ISO parse. -/
def parseISO? (s : String) : Option (ℤ × ℕ × ℕ) :=
  match splitChars (· = '-') s.toList with
  | [p1, p2, p3] =>
    if p1.length = 4 && p2.length = 2 && p3.length = 2 &&
       p1.all Char.isDigit && p2.all Char.isDigit && p3.all Char.isDigit then
      let y := (digitsToNat p1 : ℤ)
      let m := digitsToNat p2
      let d := digitsToNat p3
      if 1 ≤ m && m ≤ 12 && 1 ≤ d && d ≤ daysInMonth y m then some (y, m, d)
      else none
    else none
  | _ => none

/-- Source `match.py:score_date` — `(score, days_apart, evidence)`; `999` is the
sentinel for "incomparable". -/
def score_date (receipt_date transaction_date : String) : ℚ × ℤ × String :=
  let rd := normalize_date (some receipt_date)
  let td := normalize_date (some transaction_date)
  if rd = "" && td = "" then (0, 999, "Both dates are missing - cannot compare")
  else if rd = "" then (0, 999, s!"Receipt date is missing (bank: {td})")
  else if td = "" then (0, 999, s!"Bank date is missing (receipt: {rd})")
  else
    match parseISO? rd, parseISO? td with
    | some (ry, rm, rdd), some (ty, tm, tdd) =>
      let rn := daysFromCivil ry rm rdd
      let tn := daysFromCivil ty tm tdd
      let days_apart : ℤ := |tn - rn|
      let score := round1 (max 0 (1 - (days_apart : ℚ) / 5) * 100)
      let evidence :=
        if days_apart = 0 then s!"Same date: {rd}"
        else if days_apart ≤ 3 then
          let direction := if tn > rn then "later" else "earlier"
          s!"Settlement delay: {days_apart} day(s) {direction} (receipt: {rd}, bank: {td})"
        else if days_apart ≤ 7 then
          s!"Date gap: {days_apart} days apart (receipt: {rd}, bank: {td}) - exceeds typical 1-3 day settlement window"
        else s!"Date mismatch: {days_apart} days apart (receipt: {rd}, bank: {td})"
      (score, days_apart, evidence)
    | _, _ => (0, 999, s!"Could not compare dates: {rd} vs {td}")

/-! ### `models.py` — data models

`pydantic` models become plain structures.  `Diagnosis` construction with a
dynamically-typed `top_match` goes through a checked constructor below,
mirroring pydantic's field validation.
-/

/-- Source `models.py:MismatchType` — the five mismatch archetypes. -/
inductive MismatchType where
  | VENDOR_MISMATCH
  | SETTLEMENT_DELAY
  | TIP_TAX_VARIANCE
  | PARTIAL_MATCH
  | NO_MATCH
deriving DecidableEq, Repr

/-- Source `models.py:Transaction`. -/
structure Transaction where
  merchant : String
  amount : ℚ
  date : String
  description : Option String := none
  transaction_id : Option String := none
deriving DecidableEq, Repr

/-- Source `models.py:MatchCandidate`; `date_diff` is `ℤ` to carry the 999 sentinel. -/
structure MatchCandidate where
  transaction : Transaction
  vendor_score : ℚ
  amount_diff : ℚ
  amount_pct_diff : ℚ
  date_diff : ℤ
  overall_confidence : ℚ
  evidence : List String := []
deriving DecidableEq, Repr

/-- Source `models.py:ReceiptData`. -/
structure ReceiptData where
  vendor : String
  total : ℚ
  date : Option String := none
  tax : Option ℚ := none
  tip : Option ℚ := none
  subtotal : Option ℚ := none
  currency : String := "USD"
  confidence : ℚ := 1
  chunk_ids : List String := []
  raw_text : Option String := none
deriving DecidableEq, Repr

/-- Source `ReceiptData.has_tip`. -/
def ReceiptData.has_tip (r : ReceiptData) : Bool :=
  match r.tip with
  | some t => t > 0
  | none => false

/-- Source `ReceiptData.has_tax`. -/
def ReceiptData.has_tax (r : ReceiptData) : Bool :=
  match r.tax with
  | some t => t > 0
  | none => false

/-- Source `ReceiptData.is_low_confidence`: extraction confidence below 0.8. -/
def ReceiptData.is_low_confidence (r : ReceiptData) : Bool :=
  r.confidence < 4/5

/-! ### Dynamic values for `diagnose`

`diagnose` accepts arbitrary Python objects.  A `PyVal` is a scalar
attribute value; a `RawCandidate` is a duck-typed object whose attributes may
be missing; a `PyCandidate` is either a genuine `MatchCandidate` instance or
such a duck-typed object (pydantic accepts the former and rejects the latter
when validating `Diagnosis.top_match`). -/

/-- A dynamic scalar: finite number, string, or `None`. -/
inductive PyVal where
  | num (q : ℚ)
  | str (s : String)
  | noneV
deriving DecidableEq, Repr

/-- A duck-typed `transaction` attribute. -/
structure TxnObj where
  merchant : Option PyVal := none
  amount : Option PyVal := none
deriving DecidableEq, Repr

/-- A duck-typed candidate object: every attribute may be absent. -/
structure RawCandidate where
  vendor_score : Option PyVal := none
  amount_diff : Option PyVal := none
  amount_pct_diff : Option PyVal := none
  date_diff : Option PyVal := none
  overall_confidence : Option PyVal := none
  transaction : Option TxnObj := none
  evidence : Option (List String) := none
deriving DecidableEq, Repr

/-- A candidate as `diagnose` receives it. -/
inductive PyCandidate where
  | valid (c : MatchCandidate)
  | duck (r : RawCandidate)
deriving DecidableEq, Repr

/-- Python exception classes observed by the embedding. -/
inductive PyExn where
  | typeError
  | valueError
  | attributeError
  | validationError
deriving DecidableEq, Repr

/-- Source `type(exc).__name__`. -/
def PyExn.name : PyExn → String
  | .typeError => "TypeError"
  | .valueError => "ValueError"
  | .attributeError => "AttributeError"
  | .validationError => "ValidationError"

/-- Source `models.py:Diagnosis`. -/
structure Diagnosis where
  labels : List MismatchType
  confidence : ℚ
  evidence : List String
  top_match : Option PyCandidate
  receipt : Option ReceiptData
  explanation : String
deriving DecidableEq, Repr

/-- Attribute lookup failure (`AttributeError`) as an `Except`. -/
def getAttrE {α : Type} (o : Option α) : Except PyExn α :=
  match o with
  | some v => .ok v
  | none => .error .attributeError

/-- Source `getattr(c, "vendor_score", ...)`. -/
def PyCandidate.vendorScoreAttr : PyCandidate → Option PyVal
  | .valid c => some (.num c.vendor_score)
  | .duck r => r.vendor_score

/-- Source `getattr(c, "overall_confidence", ...)`. -/
def PyCandidate.overallAttr : PyCandidate → Option PyVal
  | .valid c => some (.num c.overall_confidence)
  | .duck r => r.overall_confidence

/-- Source `getattr(c, "amount_pct_diff", ...)`. -/
def PyCandidate.pctAttr : PyCandidate → Option PyVal
  | .valid c => some (.num c.amount_pct_diff)
  | .duck r => r.amount_pct_diff

/-- Source `getattr(c, "amount_diff", ...)`. -/
def PyCandidate.amountDiffAttr : PyCandidate → Option PyVal
  | .valid c => some (.num c.amount_diff)
  | .duck r => r.amount_diff

/-- Source `getattr(c, "date_diff", ...)`. -/
def PyCandidate.dateDiffAttr : PyCandidate → Option PyVal
  | .valid c => some (.num (c.date_diff : ℚ))
  | .duck r => r.date_diff

/-- Source `getattr(c, "transaction", ...)`. -/
def PyCandidate.transactionAttr : PyCandidate → Option TxnObj
  | .valid c => some ⟨some (.str c.transaction.merchant), some (.num c.transaction.amount)⟩
  | .duck r => r.transaction

/-- Source `getattr(c, "evidence", ...)`. -/
def PyCandidate.evidAttr : PyCandidate → Option (List String)
  | .valid c => some c.evidence
  | .duck r => r.evidence

/-- Source `diagnose.py:_safe_float` — coerce to float, fallback on failure. -/
def safeFloat (v : PyVal) (fallback : ℚ := 0) : ℚ :=
  match v with
  | .num q => q
  | .str s => (pyFloat? s).getD fallback
  | .noneV => fallback

/-- Python `int(x)` on a dynamic value; raises on `None`/non-numeric text. -/
def pyIntE : PyVal → Except PyExn ℤ
  | .num q => .ok (pyTrunc q)
  | .str s => match pyInt? s with
    | some z => .ok z
    | none => .error .valueError
  | .noneV => .error .typeError

/-- Format-spec interpolation (`:.1f` / `:.2f`): raises on non-numeric values
(the numeric rendering itself is not claim-relevant and is kept simple). -/
def pyFormatFloat : PyVal → Except PyExn String
  | .num q => .ok (toString q)
  | .str _ => .error .valueError
  | .noneV => .error .typeError

/-- Plain f-string interpolation `str(x)`: never raises. -/
def pyStrVal : PyVal → String
  | .num q => toString q
  | .str s => s
  | .noneV => "None"

/-! ### `match.py` — `find_matches`

The transaction table is a list of rows; a missing cell (pandas `NaN`)
is `none`.  Every pandas primitive the source uses is modelled as a
state-passing function on the frame so that the frame-effect claim is
expressible: `dropna` (without `inplace`), `copy`, and `iterrows` all leave
the frame unchanged per the pandas contract. -/

/-- One transaction row; `none` cells model pandas `NaN`. -/
structure Row where
  merchant : Option String := none
  amount : Option AmountInput := none
  date : Option String := none
  description : Option String := none
  transaction_id : Option String := none
deriving DecidableEq, Repr

/-- A DataFrame: which of the required columns exist, and the row data. -/
structure Frame where
  hasMerchantCol : Bool := true
  hasAmountCol : Bool := true
  hasDateCol : Bool := true
  rows : List Row := []
deriving DecidableEq, Repr

/-- The `transactions_df` argument as received: `None`, a non-DataFrame
value, or a DataFrame. -/
inductive DFInput where
  | pyNone
  | notDF
  | df (f : Frame)
deriving DecidableEq, Repr

/-- Source `df.empty` — read-only. -/
def dfEmpty (f : Frame) : Bool × Frame := (f.rows.isEmpty, f)

/-- Missing-required-columns check (lines 314-316) — read-only. -/
def dfMissingCols (f : Frame) : Bool × Frame :=
  (!(f.hasMerchantCol && f.hasAmountCol && f.hasDateCol), f)

/-- Source `df.dropna(subset=["merchant", "amount"]).copy()` — returns a fresh row
list, leaving the frame unchanged (pandas `dropna` without `inplace=True`
never mutates its receiver). -/
def dfDropnaCopy (f : Frame) : List Row × Frame :=
  (f.rows.filter (fun r => r.merchant.isSome && r.amount.isSome), f)

/-- Loop body of `find_matches` (lines 354-393): date pre-filter, then
vendor/amount scoring and candidate construction.  `none` means the row was
skipped by the date window. -/
def processRow (receipt_vendor : String) (receipt_total : ℚ) (receipt_date : String)
    (row : Row) : Option MatchCandidate :=
  let raw_date := row.date.getD ""
  let dres := score_date receipt_date raw_date
  let d_score := dres.1
  let days_apart := dres.2.1
  let d_evidence := dres.2.2
  if days_apart > 3 && days_apart ≠ 999 then none
  else
    let raw_merchant := row.merchant.getD ""
    let amount_value := normalize_amount (row.amount.getD (.num 0))
    let vres := score_vendor receipt_vendor raw_merchant
    let ares := score_amount receipt_total amount_value
    let v_score := vres.1
    let a_score := ares.1
    let abs_diff := ares.2.1
    let pct_diff := ares.2.2.1
    let overall := round1 (v_score * (2/5) + a_score * (7/20) + d_score * (1/4))
    some {
      transaction := {
        merchant := raw_merchant
        amount := amount_value
        date := raw_date
        description := row.description
        transaction_id := row.transaction_id }
      vendor_score := v_score
      amount_diff := abs_diff
      amount_pct_diff := pct_diff
      date_diff := days_apart
      overall_confidence := overall
      evidence := [vres.2, ares.2.2.2, d_evidence] }

/-- Source `match.py:find_matches` on an actual DataFrame, with the frame threaded
through every pandas primitive; returns the candidates and the final frame. -/
def find_matchesCore (receipt : Option ReceiptData) (f0 : Frame) :
    List MatchCandidate × Frame :=
  match receipt with
  | none => ([], f0)
  | some r =>
    let (isEmpty, f1) := dfEmpty f0
    if isEmpty then ([], f1)
    else
      let (missing, f2) := dfMissingCols f1
      if missing then ([], f2)
      else
        let receipt_vendor := r.vendor
        let receipt_total := normalize_amount (.num r.total)
        let receipt_date := r.date.getD ""
        let (valid_rows, f3) := dfDropnaCopy f2
        if valid_rows.isEmpty then ([], f3)
        else
          let candidates := valid_rows.filterMap
            (processRow receipt_vendor receipt_total receipt_date)
          let above := candidates.filter (fun c => c.overall_confidence ≥ 30)
          let result :=
            (sortDesc (fun c : MatchCandidate => c.overall_confidence) above).take 3
          (result, f3)

/-- Candidates scored by the row loop before threshold/sort/truncate
(the `candidates` list at line 393). -/
def scoredCandidates (receipt : Option ReceiptData) (f : Frame) : List MatchCandidate :=
  match receipt with
  | none => []
  | some r =>
    ((dfDropnaCopy f).1).filterMap
      (processRow r.vendor (normalize_amount (.num r.total)) (r.date.getD ""))

/-- Source `match.py:find_matches` — empty list on absent/ill-shaped input. -/
def find_matches (receipt : Option ReceiptData) (t : DFInput) : List MatchCandidate :=
  match t with
  | .pyNone => []
  | .notDF => []
  | .df f => (find_matchesCore receipt f).1

/-! ### `diagnose.py` — confidence calibration and classification -/

/-- Source `diagnose.py:_calibrate_confidence` (lines 62-107). -/
def calibrate_confidence (match_confidence : ℚ) (receipt : Option ReceiptData)
    (num_matches : ℕ) (labels : List MismatchType) : ℚ :=
  let adjusted := match_confidence
  let adjusted :=
    match receipt with
    | some r =>
      if r.is_low_confidence then
        adjusted - max 0 (min ((4/5 - r.confidence) * 30) 15)
      else adjusted
    | none => adjusted
  let adjusted :=
    if num_matches ≥ 3 then adjusted - 5
    else if num_matches = 2 then adjusted - 2
    else adjusted
  let adjusted :=
    if labels.length ≥ 3 then adjusted - 3
    else if labels.length = 2 then adjusted - 1
    else adjusted
  let adjusted :=
    if receipt.isSome && labels.isEmpty && adjusted ≥ 80 then adjusted + 3
    else adjusted
  max 0 (min 100 (round1 adjusted))

/-- Source `diagnose` CASE 1 (lines 124-146): no candidates at all. -/
def noCandidatesDiagnosis (receipt : Option ReceiptData) : Diagnosis :=
  let dateNote :=
    match receipt with
    | some r =>
      match r.date with
      | some d =>
        if d ≠ "" then
          [s!"Receipt dated {d} - verify that transactions from this date range are included in the CSV."]
        else []
      | none => []
    | none => []
  { labels := [.NO_MATCH]
    confidence := 95
    evidence := ["No transactions in the CSV scored above the 30% confidence threshold."]
      ++ dateNote
      ++ ["Possible causes: transaction not yet posted by the bank, transaction in a different account, or receipt doesn't belong to this transaction set."]
    top_match := none
    receipt := receipt
    explanation := "" }

/-- Source `diagnose` defensive fallback (lines 149-160): top candidate lacks
`vendor_score` or `overall_confidence`. -/
def invalidStructureDiagnosis (receipt : Option ReceiptData) : Diagnosis :=
  { labels := [.NO_MATCH]
    confidence := 0
    evidence := ["Internal error: match candidate has invalid structure."]
    top_match := none
    receipt := receipt
    explanation := "" }

/-- Check 1 (lines 182-196): VENDOR_MISMATCH.  Evaluation order mirrors the
source: the `top.transaction.merchant` access precedes the f-string's
`:.1f` format of `top.vendor_score`; either can raise on a malformed top. -/
def vendorCheck (top : PyCandidate) (receipt : Option ReceiptData)
    (vendor_matches : Bool) : Except PyExn (List MismatchType × List String) :=
  if vendor_matches then .ok ([], [])
  else do
    let receipt_vendor := match receipt with
      | some r => r.vendor
      | none => "unknown"
    let txn ← getAttrE top.transactionAttr
    let bank_merchant ← getAttrE txn.merchant
    let vs ← getAttrE top.vendorScoreAttr
    let vsFmt ← pyFormatFloat vs
    let bm := pyStrVal bank_merchant
    .ok ([.VENDOR_MISMATCH],
      [s!"Vendor descriptor mismatch: names scored {vsFmt}/100 (threshold: 80). Receipt vendor '{receipt_vendor}' does not closely match bank descriptor '{bm}' - likely abbreviated or coded by payment processor."])

/-- Check 2 (lines 199-210): SETTLEMENT_DELAY; pure. -/
def settlementCheck (date_matches : Bool) (date_diff : ℤ) :
    List MismatchType × List String :=
  if !date_matches && 1 ≤ date_diff && date_diff ≤ 3 then
    ([.SETTLEMENT_DELAY],
      [s!"Settlement delay: {date_diff} day(s) between receipt date and bank posting date. Credit card transactions typically settle in 1-3 business days, so this delay is within the normal range."])
  else ([], [])

/-- Check 3 (lines 213-252): TIP_TAX_VARIANCE with contextual evidence. -/
def tipTaxCheck (top : PyCandidate) (receipt : Option ReceiptData)
    (amount_matches : Bool) (amount_pct_diff : ℚ) :
    Except PyExn (List MismatchType × List String) :=
  if !amount_matches && amount_pct_diff ≤ 25 then do
    let ad ← getAttrE top.amountDiffAttr
    let adFmt ← pyFormatFloat ad
    let base := s!"Amount variance of ${adFmt} ({amount_pct_diff}%) is within the 25% threshold for tip/tax variance."
    let ctxTip :=
      match receipt with
      | some r =>
        if r.has_tip then
          match r.tip with
          | some t => [s!"Receipt includes a ${t} tip."]
          | none => []
        else []
      | none => []
    let ctxTax :=
      match receipt with
      | some r =>
        if r.has_tax then
          match r.tax with
          | some tax =>
            if |safeFloat ad - tax| < 1 then
              [s!"Difference (${adFmt}) is close to the receipt tax amount (${tax})."]
            else []
          | none => []
        else []
      | none => []
    match receipt with
    | some r => do
      let txn ← getAttrE top.transactionAttr
      let amt ← getAttrE txn.amount
      let ctxAmt :=
        if safeFloat amt > r.total then
          ["Bank charged more than receipt total - consistent with tip added after receipt was printed."]
        else if safeFloat amt < r.total then
          ["Bank charged less than receipt total - possible discount, partial refund, or pre-tip authorization."]
        else []
      let ctx := ctxTip ++ ctxTax ++ ctxAmt
      if ctx ≠ [] then
        .ok ([.TIP_TAX_VARIANCE], [base ++ " " ++ " ".intercalate ctx])
      else
        .ok ([.TIP_TAX_VARIANCE],
          [base ++ " Consistent with tip, tax adjustment, or rounding difference."])
    | none =>
      let ctx := ctxTip ++ ctxTax
      if ctx ≠ [] then
        .ok ([.TIP_TAX_VARIANCE], [base ++ " " ++ " ".intercalate ctx])
      else
        .ok ([.TIP_TAX_VARIANCE],
          [base ++ " Consistent with tip, tax adjustment, or rounding difference."])
  else .ok ([], [])

/-- Moderate-vendor contributing factor of the partial-match note
(lines 274-277): formatted only when the vendor score sits in `[80, 95)`. -/
def partialVendorFactor (top : PyCandidate) : Except PyExn (List String) :=
  if 80 ≤ safeFloat (top.vendorScoreAttr.getD .noneV) &&
     safeFloat (top.vendorScoreAttr.getD .noneV) < 95 then do
    let vs ← getAttrE top.vendorScoreAttr
    let vsFmt ← pyFormatFloat vs
    pure [s!"vendor similarity is moderate ({vsFmt}/100)"]
  else pure []

/-- Post-check (lines 257-303): clean match or PARTIAL_MATCH when no
archetype fired. -/
def postCheck (top : PyCandidate) (labels : List MismatchType)
    (amount_pct_diff : ℚ) (date_diff : ℤ) :
    Except PyExn (List MismatchType × List String) :=
  if labels ≠ [] then .ok ([], [])
  else if safeFloat (top.overallAttr.getD .noneV) ≥ 80 then
    .ok ([],
      ["All signals align - vendor, amount, and date all match within thresholds. This appears to be a clean match with no accounting exception."])
  else do
    let f1 ← partialVendorFactor top
    let f2 :=
      if amount_pct_diff > 2 && amount_pct_diff > 25 then
        [s!"amount difference ({amount_pct_diff}%) exceeds the 25% tip/tax threshold"]
      else []
    let f3 :=
      if date_diff > 3 && date_diff ≠ 999 then
        [s!"date gap ({date_diff} days) exceeds the 3-day settlement window"]
      else []
    let ov ← getAttrE top.overallAttr
    let ovFmt ← pyFormatFloat ov
    let factors := f1 ++ f2 ++ f3
    if factors ≠ [] then
      .ok ([.PARTIAL_MATCH],
        [s!"Partial match: overall confidence is {ovFmt}% (below 80% clean match threshold). Contributing factors: " ++ "; ".intercalate factors ++ "."])
    else
      .ok ([.PARTIAL_MATCH],
        [s!"Partial match: overall confidence is {ovFmt}% (below 80% clean match threshold). Some signals align but the combined evidence is not strong enough for a confident diagnosis."])

/-- Extraction-confidence warning (lines 306-315); pure. -/
def lowConfWarning (receipt : Option ReceiptData) : List String :=
  match receipt with
  | some r =>
    if r.is_low_confidence then
      let conf := r.confidence
      [s!"WARNING: Low extraction confidence ({conf}). The receipt image may be blurry, damaged, or partially illegible. Extracted values should be verified manually before acting on this diagnosis."]
    else []
  | none => []

/-- Runner-up notice (lines 318-326): fires when the second candidate is
within 15 points; attribute access and formats may raise on a duck-typed
runner-up. -/
def runnerUpNote (top runner : PyCandidate) : Except PyExn (List String) := do
  let rOv ← getAttrE runner.overallAttr
  let gap := safeFloat (top.overallAttr.getD .noneV) - safeFloat rOv
  if gap < 15 then do
    let txn ← getAttrE runner.transactionAttr
    let merch ← getAttrE txn.merchant
    let amt ← getAttrE txn.amount
    let amtFmt ← pyFormatFloat amt
    let rOvFmt ← pyFormatFloat rOv
    let merchS := pyStrVal merch
    .ok [s!"Note: A second candidate ('{merchS}', ${amtFmt}) scored {rOvFmt}% - only {gap} points below the top match. Manual review recommended."]
  else .ok []

/-- The multiple-candidates step (line 318): the notice fires only when a
second candidate exists. -/
def secondCandidateNote (top : PyCandidate) (rest : List PyCandidate) :
    Except PyExn (List String) :=
  match rest with
  | [] => pure []
  | runner :: _ => runnerUpNote top runner

/-- pydantic validation of `Diagnosis(top_match=...)`: a value that is
neither `None` nor a genuine `MatchCandidate` instance raises
`ValidationError`. -/
def mkDiagnosisChecked (labels : List MismatchType) (confidence : ℚ)
    (evidence : List String) (top : Option PyCandidate)
    (receipt : Option ReceiptData) : Except PyExn Diagnosis :=
  match top with
  | some (.duck _) => .error .validationError
  | some (.valid c) =>
    if confidence < 0 || confidence > 100 then .error .validationError
    else .ok { labels := labels, confidence := confidence, evidence := evidence,
               top_match := some (.valid c), receipt := receipt, explanation := "" }
  | none =>
    if confidence < 0 || confidence > 100 then .error .validationError
    else .ok { labels := labels, confidence := confidence, evidence := evidence,
               top_match := none, receipt := receipt, explanation := "" }

/-- The `try` block of `diagnose` (lines 115-352), after `None` filtering. -/
def diagnoseBody (ms : List PyCandidate) (receipt : Option ReceiptData) :
    Except PyExn Diagnosis :=
  match ms with
  | [] => .ok (noCandidatesDiagnosis receipt)
  | top :: rest =>
    if top.vendorScoreAttr.isNone || top.overallAttr.isNone then
      .ok (invalidStructureDiagnosis receipt)
    else do
      let vendor_matches := safeFloat (top.vendorScoreAttr.getD .noneV) ≥ 80
      let pctVal ← getAttrE top.pctAttr
      let amount_pct_diff := safeFloat pctVal
      let amount_matches := amount_pct_diff ≤ 2
      let date_diff ← pyIntE (top.dateDiffAttr.getD (.num 999))
      let date_matches := date_diff = 0
      let r1 ← vendorCheck top receipt vendor_matches
      let r2 := settlementCheck date_matches date_diff
      let r3 ← tipTaxCheck top receipt amount_matches amount_pct_diff
      let labels0 := r1.1 ++ r2.1 ++ r3.1
      let r4 ← postCheck top labels0 amount_pct_diff date_diff
      let labels := labels0 ++ r4.1
      let e5 := lowConfWarning receipt
      let e6 ← secondCandidateNote top rest
      let complete_evidence :=
        (top.evidAttr.getD []) ++ r1.2 ++ r2.2 ++ r3.2 ++ r4.2 ++ e5 ++ e6
      let cal := calibrate_confidence (safeFloat (top.overallAttr.getD .noneV))
        receipt ms.length labels
      mkDiagnosisChecked labels cal complete_evidence (some top) receipt

/-- The NO_MATCH shape built by the `except` handler (lines 360-370). -/
def exceptionDiagnosis (e : PyExn) (top : Option PyCandidate)
    (receipt : Option ReceiptData) : Diagnosis :=
  let exnName := e.name
  { labels := [.NO_MATCH]
    confidence := 0
    evidence := [s!"Diagnosis failed due to {exnName}: see log for details.",
                 "Returning safe fallback diagnosis; review input data manually."]
    top_match := top
    receipt := receipt
    explanation := "" }

/-- The `except` handler itself: `matches[0] if matches else None` followed
by pydantic validation; both can raise again, in which case the exception
escapes `diagnose`. -/
def runHandler (ms : List PyCandidate) (receipt : Option ReceiptData)
    (e : PyExn) : Except PyExn Diagnosis :=
  match ms with
  | [] => .ok (exceptionDiagnosis e none receipt)
  | .duck _ :: _ => .error .validationError
  | c :: _ => .ok (exceptionDiagnosis e (some c) receipt)

/-- The `matches` argument of `diagnose` as received: `None`, a truthy or
falsy non-iterable value (e.g. `42` or `0`), or an actual list whose
elements may be `None` or arbitrary objects. -/
inductive DiagInput where
  | pyNone
  | nonIterable (truthy : Bool)
  | ofList (xs : List (Option PyCandidate))
deriving DecidableEq, Repr

/-- Source `diagnose.py:diagnose`.  `.error` models an exception escaping to the
caller: the list comprehension at line 119 raises `TypeError` on a
non-iterable, and the handler's own `matches[0]` subscript or pydantic
validation can raise again. -/
def diagnose (input : DiagInput) (receipt : Option ReceiptData := none) :
    Except PyExn Diagnosis :=
  match input with
  | .pyNone => .ok (noCandidatesDiagnosis receipt)
  | .nonIterable truthy =>
    if truthy then .error .typeError
    else .ok (exceptionDiagnosis .typeError none receipt)
  | .ofList xs =>
    let ms := xs.filterMap id
    match diagnoseBody ms receipt with
    | .ok d => .ok d
    | .error e => runHandler ms receipt e

/-- Labels of a returned diagnosis (`[]` when the call raised). -/
def diagLabels (input : DiagInput) (receipt : Option ReceiptData := none) :
    List MismatchType :=
  match diagnose input receipt with
  | .ok d => d.labels
  | .error _ => []

/-- Confidence of a returned diagnosis (`none` when the call raised). -/
def diagConfidence (input : DiagInput) (receipt : Option ReceiptData := none) :
    Option ℚ :=
  match diagnose input receipt with
  | .ok d => some d.confidence
  | .error _ => none

/-- NO_MATCH appears only as the sole label. -/
def labelsExclusive (l : List MismatchType) : Bool :=
  !(decide (MismatchType.NO_MATCH ∈ l)) || decide (l = [MismatchType.NO_MATCH])

/-- A well-formed candidate for boundary tests (shape of the repository's
own `make_candidate` test helper). -/
def boundaryCandidate (vs ad pct : ℚ) (dd : ℤ) (oc : ℚ) : PyCandidate :=
  .valid {
    transaction := { merchant := "Test Merchant", amount := 100, date := "2026-01-15" }
    vendor_score := vs
    amount_diff := ad
    amount_pct_diff := pct
    date_diff := dd
    overall_confidence := oc
    evidence := [] }

/-- A duck-typed object carrying the two `hasattr`-guarded fields plus the
two eagerly-read scoring fields, and nothing else. -/
def partialDuck : RawCandidate :=
  { vendor_score := some (.num 100)
    overall_confidence := some (.num 85)
    amount_pct_diff := some (.num 0)
    date_diff := some (.num 0) }

/-- The calibration pipeline as the specification's words state it: start
from the top candidate's overall confidence; subtract
`clamp((0.8 − receipt.confidence) × 30, 0, 15)` when extraction confidence
is below 0.8; subtract 5 when 3 or more candidates were passed in (2 when
exactly 2); subtract 3 when 3 or more labels fired (1 when exactly 2); add 3
when a receipt is present, no label fired, and the running value is still at
least 80; clamp to `[0, 100]` and round to 1 decimal. -/
def specConfidenceFormula (overall : ℚ) (receipt : Option ReceiptData)
    (numCandidates numLabels : ℕ) : ℚ :=
  let afterExtraction :=
    match receipt with
    | some rec =>
      if rec.confidence < 4/5 then
        overall - max 0 (min ((4/5 - rec.confidence) * 30) 15)
      else overall
    | none => overall
  let afterAmbiguity :=
    if numCandidates ≥ 3 then afterExtraction - 5
    else if numCandidates = 2 then afterExtraction - 2
    else afterExtraction
  let afterCompound :=
    if numLabels ≥ 3 then afterAmbiguity - 3
    else if numLabels = 2 then afterAmbiguity - 1
    else afterAmbiguity
  let withBonus :=
    if receipt.isSome ∧ numLabels = 0 ∧ afterCompound ≥ 80 then afterCompound + 3
    else afterCompound
  max 0 (min 100 (round1 withBonus))

/-! ### Shape lemmas for `normalize_amount` -/

theorem roundHalfEven_intCast (z : ℤ) : roundHalfEven (z : ℚ) = z := by
  unfold roundHalfEven
  rw [Int.floor_intCast]
  have h2 : (z : ℚ) - z = 0 := by ring
  rw [h2]
  norm_num

/-- Rounding an exact `n`-decimal value is the identity. -/
theorem rnd_idem (n : ℕ) (x : ℚ) : rnd n (rnd n x) = rnd n x := by
  unfold rnd
  have hp : ((10 : ℚ) ^ n) ≠ 0 := by positivity
  rw [div_mul_cancel₀ _ hp, roundHalfEven_intCast]

theorem roundHalfEven_nonneg {x : ℚ} (h : 0 ≤ x) : 0 ≤ roundHalfEven x := by
  unfold roundHalfEven
  have hfl : (0 : ℤ) ≤ ⌊x⌋ := Int.le_floor.mpr (by exact_mod_cast h)
  split
  · exact hfl
  split
  · omega
  split <;> omega

theorem rnd_nonneg (n : ℕ) {x : ℚ} (h : 0 ≤ x) : 0 ≤ rnd n x := by
  unfold rnd
  have hp : (0 : ℚ) < (10 : ℚ) ^ n := by positivity
  have hx : 0 ≤ x * (10 : ℚ) ^ n := mul_nonneg h (le_of_lt hp)
  have := roundHalfEven_nonneg hx
  positivity

theorem rnd_zero (n : ℕ) : rnd n 0 = 0 := by
  unfold rnd roundHalfEven
  norm_num

theorem normalize_amount_shape (a : AmountInput) :
    0 ≤ normalize_amount a ∧ round2 (normalize_amount a) = normalize_amount a := by
  cases a with
  | noneV => exact ⟨le_refl 0, rnd_zero 2⟩
  | nonFinite => exact ⟨le_refl 0, rnd_zero 2⟩
  | num q =>
    simp only [normalize_amount]
    split
    · exact ⟨le_refl 0, rnd_zero 2⟩
    · next h =>
      have hq : 0 ≤ q := le_of_not_lt h
      exact ⟨rnd_nonneg 2 hq, rnd_idem 2 q⟩
  | str s =>
    simp only [normalize_amount, normalizeAmountStr]
    repeat' split
    all_goals try exact ⟨le_refl 0, rnd_zero 2⟩
    next h =>
      rw [Bool.or_eq_true, not_or] at h
      have hv : ¬(decide _ = true) := h.2
      rw [decide_eq_true_iff, not_lt] at hv
      exact ⟨rnd_nonneg 2 hv, rnd_idem 2 _⟩

/-- C9: `normalize_amount` is idempotent on numeric inputs, and every result
is a non-negative value equal to its own rounding to 2 decimal places. -/
theorem normalize_amount_idempotent_nonneg_2dp :
    (∀ q : ℚ, normalize_amount (.num (normalize_amount (.num q))) =
      normalize_amount (.num q)) ∧
    (∀ a : AmountInput, 0 ≤ normalize_amount a ∧
      normalize_amount a = round2 (normalize_amount a)) := by
  constructor
  · intro q
    obtain ⟨hpos, hrnd⟩ := normalize_amount_shape (.num q)
    show (if normalize_amount (.num q) < 0 then (0:ℚ)
          else round2 (normalize_amount (.num q))) = normalize_amount (.num q)
    rw [if_neg (not_lt.mpr hpos), hrnd]
  · intro a
    obtain ⟨hpos, hrnd⟩ := normalize_amount_shape a
    exact ⟨hpos, hrnd.symm⟩

/-- C10: `find_matches` never mutates the transaction DataFrame: the frame
threaded through every pandas primitive comes back unchanged. -/
theorem find_matches_frame_unchanged :
    ∀ (r : Option ReceiptData) (f : Frame), (find_matchesCore r f).2 = f := by
  intro r f
  cases r with
  | none => rfl
  | some rr =>
    simp only [find_matchesCore, dfEmpty, dfMissingCols, dfDropnaCopy]
    repeat' split
    all_goals rfl

/-- C8: `diagnose` on an empty candidate list, with or without a receipt,
returns labels `[NO_MATCH]`, confidence exactly 95.0, and no top match. -/
theorem diagnose_empty_list :
    ∀ r : Option ReceiptData,
      (diagnose (.ofList []) r).toOption.map
          (fun d => (d.labels, d.confidence, d.top_match)) =
        some ([MismatchType.NO_MATCH], (95 : ℚ), (none : Option PyCandidate)) := by
  intro r
  rfl

/-- C1 (violated by the code): `diagnose` can raise.  On a truthy non-list
input the `except` handler's own `matches[0]` subscript raises `TypeError`;
on a single malformed candidate carrying the four scoring attributes the
handler's `Diagnosis(top_match=...)` fails pydantic validation. -/
theorem diagnose_raises_on_bad_input :
    diagnose (.nonIterable true) none = .error .typeError ∧
    diagnose (.ofList [some (.duck partialDuck)]) none = .error .validationError :=
  ⟨rfl, by with_unfolding_all rfl⟩

/-- C2 counterexample: with a valid top candidate and a malformed runner-up,
the runner-up notice raises, and the exception fallback returns NO_MATCH
even though candidates exist — with `top_match` carrying the first candidate
instead of `None`. -/
theorem no_match_fallback_counterexample :
    (diagnose (.ofList [some (boundaryCandidate 90 0 0 0 85), some (.duck {})])
        none).toOption.map (fun d => (d.labels, d.top_match.isSome)) =
      some ([MismatchType.NO_MATCH], true) := by
  with_unfolding_all rfl

/-- C6: rule firing at the exact threshold boundaries — vendor 80.0 vs 79.9,
date 3 vs 4, amount 25.0 vs 25.1, and the 2.0 vs 2.1 amount-match floor. -/
theorem threshold_boundary_rules :
    decide (MismatchType.VENDOR_MISMATCH ∈
      diagLabels (.ofList [some (boundaryCandidate 80 0 0 0 85)]) none) = false ∧
    decide (MismatchType.VENDOR_MISMATCH ∈
      diagLabels (.ofList [some (boundaryCandidate (799/10) 0 0 0 84)]) none) = true ∧
    decide (MismatchType.SETTLEMENT_DELAY ∈
      diagLabels (.ofList [some (boundaryCandidate 95 0 0 3 80)]) none) = true ∧
    decide (MismatchType.SETTLEMENT_DELAY ∈
      diagLabels (.ofList [some (boundaryCandidate 95 0 0 4 75)]) none) = false ∧
    decide (MismatchType.TIP_TAX_VARIANCE ∈
      diagLabels (.ofList [some (boundaryCandidate 100 25 25 0 65)]) none) = true ∧
    decide (MismatchType.TIP_TAX_VARIANCE ∈
      diagLabels (.ofList [some (boundaryCandidate 100 (251/10) (251/10) 0 60)]) none) = false ∧
    decide (MismatchType.TIP_TAX_VARIANCE ∈
      diagLabels (.ofList [some (boundaryCandidate 100 2 2 0 90)]) none) = false ∧
    decide (MismatchType.TIP_TAX_VARIANCE ∈
      diagLabels (.ofList [some (boundaryCandidate 100 (21/10) (21/10) 0 88)]) none) = true := by
  refine ⟨?_, ?_, ?_, ?_, ?_, ?_, ?_, ?_⟩ <;> with_unfolding_all rfl

/-- C3 counterexample: both sides of `("", "")` normalize to the same (empty)
string, yet `score_vendor` returns 0, not 100. -/
theorem score_vendor_claim_counterexample :
    decide (normalize_vendor (some "") = normalize_vendor (some "")) = true ∧
    decide ((score_vendor "" "").1 = 100) = false :=
  ⟨rfl, by with_unfolding_all rfl⟩

/-- C3 amended: when both vendor strings normalize to the same non-empty
form, `score_vendor` returns exactly 100. -/
theorem score_vendor_100_of_eq_normalized :
    ∀ a b : String,
      normalize_vendor (some a) = normalize_vendor (some b) →
      normalize_vendor (some a) ≠ "" →
      (score_vendor a b).1 = 100 := by
  intro a b h hne
  unfold score_vendor
  rw [← h]
  simp [hne]

/-- Witness for the amended C3 theorem at a concrete pair. -/
theorem score_vendor_100_of_eq_normalized_witness :
    (score_vendor "Starbucks" "STARBUCKS").1 = 100 :=
  score_vendor_100_of_eq_normalized "Starbucks" "STARBUCKS" rfl (by decide)

/-! ### Stable-sort lemmas for the candidate ranking -/

theorem mem_insertDesc {α β : Type} [LinearOrder β] (key : α → β) (x a : α)
    (l : List α) : a ∈ insertDesc key x l ↔ a = x ∨ a ∈ l := by
  induction l with
  | nil => simp [insertDesc]
  | cons y ys ih =>
    simp only [insertDesc]
    split
    · simp only [List.mem_cons, ih]
      tauto
    · simp only [List.mem_cons]

theorem pairwise_insertDesc {α β : Type} [LinearOrder β] (key : α → β) (x : α)
    {l : List α} (h : l.Pairwise (fun a b => key b ≤ key a)) :
    (insertDesc key x l).Pairwise (fun a b => key b ≤ key a) := by
  induction l with
  | nil => simp [insertDesc]
  | cons y ys ih =>
    rw [List.pairwise_cons] at h
    obtain ⟨hy, hys⟩ := h
    simp only [insertDesc]
    split
    · next hxy =>
      rw [List.pairwise_cons]
      refine ⟨?_, ih hys⟩
      intro a ha
      rcases (mem_insertDesc key x a ys).mp ha with rfl | ha
      · exact le_of_lt hxy
      · exact hy a ha
    · next hxy =>
      rw [List.pairwise_cons]
      refine ⟨?_, List.pairwise_cons.mpr ⟨hy, hys⟩⟩
      intro a ha
      rcases List.mem_cons.mp ha with rfl | ha
      · exact le_of_not_lt hxy
      · exact le_trans (hy a ha) (le_of_not_lt hxy)

theorem pairwise_sortDesc {α β : Type} [LinearOrder β] (key : α → β)
    (l : List α) : (sortDesc key l).Pairwise (fun a b => key b ≤ key a) := by
  induction l with
  | nil => simp [sortDesc]
  | cons x xs ih => exact pairwise_insertDesc key x ih

theorem mem_sortDesc {α β : Type} [LinearOrder β] (key : α → β) (a : α)
    (l : List α) : a ∈ sortDesc key l ↔ a ∈ l := by
  induction l with
  | nil => simp [sortDesc]
  | cons x xs ih =>
    simp only [sortDesc, mem_insertDesc, ih, List.mem_cons]

/-- Stability of the insertion: filtering to any single key value commutes
with insertion, because every element passed over has a strictly greater key. -/
theorem filter_insertDesc {α β : Type} [LinearOrder β] [DecidableEq β]
    (key : α → β) (x : α) (l : List α) (q : β) :
    (insertDesc key x l).filter (fun a => decide (key a = q)) =
      if key x = q then x :: l.filter (fun a => decide (key a = q))
      else l.filter (fun a => decide (key a = q)) := by
  induction l with
  | nil =>
    by_cases h : key x = q <;> simp [insertDesc, List.filter_cons, h]
  | cons y ys ih =>
    simp only [insertDesc]
    split
    · next hxy =>
      by_cases hyq : key y = q
      · have hxq : key x ≠ q := by
          intro hh
          rw [hh] at hxy
          rw [hyq] at hxy
          exact lt_irrefl q hxy
        simp [List.filter_cons, hyq, hxq, ih]
      · simp [List.filter_cons, hyq, ih]
    · next hxy =>
      by_cases hxq : key x = q <;> simp [List.filter_cons, hxq]

/-- Stability of the sort: filtering to any single key value returns the
original (stable) relative order. -/
theorem filter_sortDesc {α β : Type} [LinearOrder β] [DecidableEq β]
    (key : α → β) (l : List α) (q : β) :
    (sortDesc key l).filter (fun a => decide (key a = q)) =
      l.filter (fun a => decide (key a = q)) := by
  induction l with
  | nil => simp [sortDesc]
  | cons x xs ih =>
    simp only [sortDesc]
    rw [filter_insertDesc, ih, List.filter_cons]
    split <;> simp_all

/-- `find_matches` on a DataFrame either short-circuits to `[]` or is the
threshold-filter / stable-sort / truncate pipeline over the scored rows. -/
theorem find_matches_eq (r : Option ReceiptData) (f : Frame) :
    find_matches r (.df f) = [] ∨
    find_matches r (.df f) =
      ((sortDesc (fun c : MatchCandidate => c.overall_confidence)
        ((scoredCandidates r f).filter
          (fun c => decide (c.overall_confidence ≥ 30)))).take 3) := by
  cases r with
  | none => exact Or.inl rfl
  | some rr =>
    simp only [find_matches, find_matchesCore, dfEmpty, dfMissingCols, dfDropnaCopy,
      scoredCandidates]
    repeat' split
    all_goals first
      | exact Or.inl rfl
      | exact Or.inr rfl

/-- C4: `find_matches` returns at most 3 candidates, each with confidence at
least 30, sorted descending by `overall_confidence`, and — restricted to any
single confidence value — in the original (stable) row order. -/
theorem find_matches_post :
    ∀ (r : Option ReceiptData) (t : DFInput),
      (find_matches r t).length ≤ 3 ∧
      (find_matches r t).all
        (fun c => decide ((30 : ℚ) ≤ c.overall_confidence)) = true ∧
      (find_matches r t).Pairwise
        (fun a b => b.overall_confidence ≤ a.overall_confidence) ∧
      ∀ (f : Frame) (q : ℚ),
        (find_matches r (.df f)).filter
            (fun c => decide (c.overall_confidence = q)) <+:
          (scoredCandidates r f).filter
            (fun c => decide (c.overall_confidence = q)) := by
  intro r t
  have main : ∀ t', (find_matches r t').length ≤ 3 ∧
      (find_matches r t').all
        (fun c => decide ((30 : ℚ) ≤ c.overall_confidence)) = true ∧
      (find_matches r t').Pairwise
        (fun a b => b.overall_confidence ≤ a.overall_confidence) := by
    intro t'
    cases t' with
    | pyNone => exact ⟨by simp [find_matches], by simp [find_matches], by simp [find_matches]⟩
    | notDF => exact ⟨by simp [find_matches], by simp [find_matches], by simp [find_matches]⟩
    | df f =>
      rcases find_matches_eq r f with h | h
      · rw [h]
        exact ⟨by simp, by simp, by simp⟩
      · rw [h]
        refine ⟨?_, ?_, ?_⟩
        · rw [List.length_take]
          exact min_le_left 3 _
        · rw [List.all_eq_true]
          intro c hc
          have hc' := List.take_subset 3 _ hc
          rw [mem_sortDesc] at hc'
          have := (List.mem_filter.mp hc').2
          simpa using this
        · exact List.Pairwise.sublist (List.take_sublist 3 _)
            (pairwise_sortDesc (fun c : MatchCandidate => c.overall_confidence) _)
  refine ⟨(main t).1, (main t).2.1, (main t).2.2, ?_⟩
  intro f q
  rcases find_matches_eq r f with h | h
  · rw [h]
    exact List.nil_prefix
  · rw [h]
    have step1 : ((sortDesc (fun c : MatchCandidate => c.overall_confidence)
        ((scoredCandidates r f).filter
          (fun c => decide (c.overall_confidence ≥ 30)))).take 3).filter
            (fun c => decide (c.overall_confidence = q)) <+:
        (sortDesc (fun c : MatchCandidate => c.overall_confidence)
        ((scoredCandidates r f).filter
          (fun c => decide (c.overall_confidence ≥ 30)))).filter
            (fun c => decide (c.overall_confidence = q)) := by
      have htp := List.take_prefix 3
        (sortDesc (fun c : MatchCandidate => c.overall_confidence)
          ((scoredCandidates r f).filter
            (fun c => decide (c.overall_confidence ≥ 30))))
      exact htp.filter _
    rw [filter_sortDesc (fun c : MatchCandidate => c.overall_confidence)] at step1
    by_cases hq : (30 : ℚ) ≤ q
    · have heq : ((scoredCandidates r f).filter
          (fun c => decide (c.overall_confidence ≥ 30))).filter
            (fun c => decide (c.overall_confidence = q)) =
          (scoredCandidates r f).filter (fun c => decide (c.overall_confidence = q)) := by
        simp only [List.filter_filter]
        congr 1
        funext c
        by_cases hcq : c.overall_confidence = q
        · simp [hcq, hq]
        · simp [hcq]
      rw [heq] at step1
      exact step1
    · have hnil : ((scoredCandidates r f).filter
          (fun c => decide (c.overall_confidence ≥ 30))).filter
            (fun c => decide (c.overall_confidence = q)) = [] := by
        rw [List.filter_eq_nil_iff]
        intro c hc
        have h30 := (List.mem_filter.mp hc).2
        simp only [decide_eq_true_eq] at h30 ⊢
        intro hcq
        exact hq (hcq ▸ h30)
      rw [hnil] at step1
      rw [List.prefix_nil.mp step1]
      exact List.nil_prefix

/-- C5: a row whose date comparison yields more than 3 days (and not the 999
sentinel) produces no candidate; a row with the 999 sentinel is not excluded
and is still scored on vendor and amount. -/
theorem processRow_date_prefilter :
    ∀ (rv : String) (rt : ℚ) (rd : String) (row : Row),
      ((score_date rd (row.date.getD "")).2.1 > 3 ∧
          (score_date rd (row.date.getD "")).2.1 ≠ 999 →
        processRow rv rt rd row = none) ∧
      ((score_date rd (row.date.getD "")).2.1 = 999 →
        (processRow rv rt rd row).isSome = true ∧
        (processRow rv rt rd row).map MatchCandidate.vendor_score =
          some (score_vendor rv (row.merchant.getD "")).1 ∧
        (processRow rv rt rd row).map MatchCandidate.amount_pct_diff =
          some (score_amount rt (normalize_amount (row.amount.getD (.num 0)))).2.2.1 ∧
        (processRow rv rt rd row).map MatchCandidate.date_diff = some 999) := by
  intro rv rt rd row
  constructor
  · intro ⟨h1, h2⟩
    simp only [processRow]
    rw [if_pos]
    simp [h1, h2]
  · intro h999
    simp only [processRow]
    rw [if_neg (by simp [h999])]
    simp [h999]

/-- Witness for the C5 theorem: a 10-day-apart row is skipped; a row with no
bank date (sentinel 999) is still scored. -/
theorem processRow_date_prefilter_witness :
    processRow "Amazon" 10 "2026-01-10"
      { merchant := some "Amazon", amount := some (.num 10),
        date := some "2026-01-20" } = none ∧
    (processRow "Amazon" 10 ""
      { merchant := some "Amazon", amount := some (.num 10),
        date := none }).isSome = true :=
  ⟨(processRow_date_prefilter "Amazon" 10 "2026-01-10"
      { merchant := some "Amazon", amount := some (.num 10),
        date := some "2026-01-20" }).1
      (by with_unfolding_all decide),
   ((processRow_date_prefilter "Amazon" 10 ""
      { merchant := some "Amazon", amount := some (.num 10),
        date := none }).2
      (by with_unfolding_all decide)).1⟩

/-! ### NO_MATCH exclusivity (C2) -/

theorem labelsExclusive_of_not_mem {l : List MismatchType}
    (h : MismatchType.NO_MATCH ∉ l) : labelsExclusive l = true := by
  simp [labelsExclusive, h]

/-- A successful bind reduces. -/
theorem bind_ok_reduce {ε α β : Type} (a : α) (f : α → Except ε β) :
    (Except.ok a : Except ε α) >>= f = f a := rfl

/-- Inversion for a successful `Except` bind. -/
theorem exceptBind_ok {ε α β : Type} (x : Except ε α) (f : α → Except ε β)
    (b : β) : x >>= f = .ok b → ∃ a, x = .ok a ∧ f a = .ok b := by
  cases x with
  | error e => intro h; exact absurd h (by simp [Bind.bind, Except.bind])
  | ok a => intro h; exact ⟨a, rfl, by simpa [Bind.bind, Except.bind] using h⟩

theorem vendorCheck_ok_labels (top : PyCandidate) (r : Option ReceiptData)
    (vm : Bool) (p : List MismatchType × List String) :
    vendorCheck top r vm = .ok p → MismatchType.NO_MATCH ∉ p.1 := by
  intro h
  unfold vendorCheck at h
  split at h
  · cases h
    simp
  · obtain ⟨txn, -, h⟩ := exceptBind_ok _ _ _ h
    obtain ⟨bm, -, h⟩ := exceptBind_ok _ _ _ h
    obtain ⟨vs, -, h⟩ := exceptBind_ok _ _ _ h
    obtain ⟨vsf, -, h⟩ := exceptBind_ok _ _ _ h
    cases h
    simp

theorem settlementCheck_labels (dm : Bool) (dd : ℤ) :
    MismatchType.NO_MATCH ∉ (settlementCheck dm dd).1 := by
  unfold settlementCheck
  split <;> simp

theorem tipTaxCheck_ok_labels (top : PyCandidate) (r : Option ReceiptData)
    (am : Bool) (pct : ℚ) (p : List MismatchType × List String) :
    tipTaxCheck top r am pct = .ok p → MismatchType.NO_MATCH ∉ p.1 := by
  intro h
  unfold tipTaxCheck at h
  split at h
  · obtain ⟨ad, -, h⟩ := exceptBind_ok _ _ _ h
    obtain ⟨adf, -, h⟩ := exceptBind_ok _ _ _ h
    split at h
    · obtain ⟨txn, -, h⟩ := exceptBind_ok _ _ _ h
      obtain ⟨amt, -, h⟩ := exceptBind_ok _ _ _ h
      rcases ite_eq_iff.mp h with ⟨-, h⟩ | ⟨-, h⟩ <;> (cases h; simp)
    · rcases ite_eq_iff.mp h with ⟨-, h⟩ | ⟨-, h⟩ <;> (cases h; simp)
  · cases h
    simp

theorem postCheck_ok_labels (top : PyCandidate) (labels : List MismatchType)
    (pct : ℚ) (dd : ℤ) (p : List MismatchType × List String) :
    postCheck top labels pct dd = .ok p → MismatchType.NO_MATCH ∉ p.1 := by
  intro h
  unfold postCheck at h
  split at h
  · cases h
    simp
  · split at h
    · cases h
      simp
    · obtain ⟨f1, -, h⟩ := exceptBind_ok _ _ _ h
      obtain ⟨ov, -, h⟩ := exceptBind_ok _ _ _ h
      obtain ⟨ovf, -, h⟩ := exceptBind_ok _ _ _ h
      rcases ite_eq_iff.mp h with ⟨-, h⟩ | ⟨-, h⟩ <;> (cases h; simp)

theorem mkDiagnosisChecked_ok_labels (L : List MismatchType) (c : ℚ)
    (e : List String) (t : Option PyCandidate) (r : Option ReceiptData)
    (d : Diagnosis) : mkDiagnosisChecked L c e t r = .ok d → d.labels = L := by
  intro h
  unfold mkDiagnosisChecked at h
  repeat' split at h
  all_goals first
    | (cases h; rfl)
    | exact absurd h (by simp)

theorem runHandler_ok_labels (ms : List PyCandidate) (r : Option ReceiptData)
    (e : PyExn) (d : Diagnosis) :
    runHandler ms r e = .ok d → d.labels = [MismatchType.NO_MATCH] := by
  intro h
  unfold runHandler at h
  repeat' split at h
  all_goals first
    | (cases h; rfl)
    | exact absurd h (by simp)

theorem diagnoseBody_ok_exclusive (ms : List PyCandidate)
    (r : Option ReceiptData) (d : Diagnosis) :
    diagnoseBody ms r = .ok d → labelsExclusive d.labels = true := by
  intro h
  unfold diagnoseBody at h
  split at h
  · cases h
    rfl
  · split at h
    · cases h
      rfl
    · obtain ⟨pctVal, -, h⟩ := exceptBind_ok _ _ _ h
      obtain ⟨dd, -, h⟩ := exceptBind_ok _ _ _ h
      obtain ⟨r1, hr1, h⟩ := exceptBind_ok _ _ _ h
      obtain ⟨r3, hr3, h⟩ := exceptBind_ok _ _ _ h
      obtain ⟨r4, hr4, h⟩ := exceptBind_ok _ _ _ h
      obtain ⟨e6, -, h⟩ := exceptBind_ok _ _ _ h
      have hL := mkDiagnosisChecked_ok_labels _ _ _ _ _ _ h
      apply labelsExclusive_of_not_mem
      rw [hL]
      simp only [List.mem_append, not_or]
      exact ⟨⟨⟨vendorCheck_ok_labels _ _ _ _ hr1, settlementCheck_labels _ _⟩,
        tipTaxCheck_ok_labels _ _ _ _ _ hr3⟩, postCheck_ok_labels _ _ _ _ _ hr4⟩

/-- C2 amended: in every diagnosis `diagnose` returns, NO_MATCH only ever
appears as the sole label (across the no-candidates case and both defensive
fallbacks alike). -/
theorem no_match_exclusive :
    ∀ (input : DiagInput) (r : Option ReceiptData),
      labelsExclusive (diagLabels input r) = true := by
  intro input r
  unfold diagLabels diagnose
  cases input with
  | pyNone => rfl
  | nonIterable t => cases t <;> rfl
  | ofList xs =>
    cases hb : diagnoseBody (xs.filterMap id) r with
    | ok d =>
      simp only [hb]
      exact diagnoseBody_ok_exclusive _ _ _ hb
    | error e =>
      simp only [hb]
      cases hh : runHandler (xs.filterMap id) r e with
      | ok d =>
        simp only [hh]
        rw [runHandler_ok_labels _ _ _ _ hh]
        rfl
      | error e2 =>
        simp only [hh]
        rfl

/-! ### Confidence calibration (C7) -/

theorem pyTrunc_intCast (z : ℤ) : pyTrunc (z : ℚ) = z := by
  unfold pyTrunc
  split
  · exact Int.floor_intCast z
  · exact Int.ceil_intCast z

theorem calibrate_eq_spec (m : ℚ) (r : Option ReceiptData) (n : ℕ)
    (L : List MismatchType) :
    calibrate_confidence m r n L = specConfidenceFormula m r n L.length := by
  unfold calibrate_confidence specConfidenceFormula
  cases r with
  | none => simp
  | some rec =>
    simp only [ReceiptData.is_low_confidence, decide_eq_true_eq, Option.isSome_some,
      Bool.and_eq_true, List.isEmpty_iff, List.length_eq_zero, true_and]

theorem calibrate_bounds (m : ℚ) (r : Option ReceiptData) (n : ℕ)
    (L : List MismatchType) :
    0 ≤ calibrate_confidence m r n L ∧ calibrate_confidence m r n L ≤ 100 := by
  unfold calibrate_confidence
  refine ⟨le_max_left 0 _, ?_⟩
  exact max_le (by norm_num) (min_le_left 100 _)

theorem vendorCheck_valid_ok (c : MatchCandidate) (r : Option ReceiptData)
    (vm : Bool) : ∃ p, vendorCheck (.valid c) r vm = .ok p := by
  unfold vendorCheck
  repeat' first
    | exact ⟨_, rfl⟩
    | simp only [PyCandidate.transactionAttr, PyCandidate.vendorScoreAttr,
        getAttrE, pyFormatFloat, bind_ok_reduce]
    | split

theorem tipTaxCheck_valid_ok (c : MatchCandidate) (r : Option ReceiptData)
    (am : Bool) (pct : ℚ) : ∃ p, tipTaxCheck (.valid c) r am pct = .ok p := by
  unfold tipTaxCheck
  cases r with
  | none =>
    repeat' first
      | exact ⟨_, rfl⟩
      | simp only [PyCandidate.amountDiffAttr, getAttrE, pyFormatFloat,
          bind_ok_reduce]
      | split
  | some rec =>
    repeat' first
      | exact ⟨_, rfl⟩
      | simp only [PyCandidate.amountDiffAttr, PyCandidate.transactionAttr,
          getAttrE, pyFormatFloat, bind_ok_reduce]
      | split

theorem postCheck_valid_ok (c : MatchCandidate) (labels : List MismatchType)
    (pct : ℚ) (dd : ℤ) : ∃ p, postCheck (.valid c) labels pct dd = .ok p := by
  unfold postCheck partialVendorFactor
  repeat' first
    | exact ⟨_, rfl⟩
    | simp only [PyCandidate.vendorScoreAttr, PyCandidate.overallAttr,
        getAttrE, pyFormatFloat, bind_ok_reduce, pure, Except.pure]
    | split

theorem secondCandidateNote_valid_ok (top : PyCandidate)
    (cs : List MatchCandidate) :
    ∃ es, secondCandidateNote top (cs.map .valid) = .ok es := by
  cases cs with
  | nil => exact ⟨_, rfl⟩
  | cons c2 rest =>
    unfold secondCandidateNote runnerUpNote
    repeat' first
      | exact ⟨_, rfl⟩
      | simp only [PyCandidate.transactionAttr, PyCandidate.overallAttr,
          getAttrE, pyFormatFloat, bind_ok_reduce, List.map_cons]
      | split

theorem mkDiagnosisChecked_valid_ok (L : List MismatchType) (e : List String)
    (c : MatchCandidate) (r : Option ReceiptData) (n : ℕ)
    (L2 : List MismatchType) :
    ∃ d, mkDiagnosisChecked L (calibrate_confidence (c.overall_confidence) r n L2)
        e (some (.valid c)) r = .ok d ∧
      d.labels = L ∧
      d.confidence = calibrate_confidence (c.overall_confidence) r n L2 := by
  obtain ⟨h0, h100⟩ := calibrate_bounds (c.overall_confidence) r n L2
  simp only [mkDiagnosisChecked]
  rw [if_neg (by
    simp only [Bool.or_eq_true, decide_eq_true_eq, not_or, not_lt]
    exact ⟨h0, h100⟩)]
  exact ⟨_, rfl, rfl, rfl⟩

/-- On a list of genuine `MatchCandidate`s, `diagnose` succeeds and its
confidence is `_calibrate_confidence` applied to the top candidate's overall
confidence, the candidate count, and the fired labels. -/
theorem diagnose_valid_ok (c : MatchCandidate) (cs : List MatchCandidate)
    (r : Option ReceiptData) :
    ∃ d, diagnose (.ofList ((c :: cs).map (fun v => some (.valid v)))) r = .ok d ∧
      d.confidence =
        calibrate_confidence c.overall_confidence r (cs.length + 1) d.labels := by
  have hms : ∀ l : List MatchCandidate,
      (l.map (fun v => some (PyCandidate.valid v))).filterMap id = l.map .valid := by
    intro l
    induction l with
    | nil => rfl
    | cons x xs ih => simp [List.filterMap_cons, ih]
  have hbody : ∃ d, diagnoseBody ((c :: cs).map .valid) r = .ok d ∧
      d.confidence =
        calibrate_confidence c.overall_confidence r (cs.length + 1) d.labels := by
    unfold diagnoseBody
    simp only [List.map_cons]
    rw [if_neg (by simp [PyCandidate.vendorScoreAttr, PyCandidate.overallAttr])]
    simp only [PyCandidate.pctAttr, PyCandidate.dateDiffAttr, getAttrE,
      Option.getD_some, pyIntE, bind_ok_reduce]
    obtain ⟨p1, hp1⟩ := vendorCheck_valid_ok c r _
    rw [hp1, bind_ok_reduce]
    obtain ⟨p3, hp3⟩ := tipTaxCheck_valid_ok c r _ _
    rw [hp3, bind_ok_reduce]
    obtain ⟨p4, hp4⟩ := postCheck_valid_ok c _ _ _
    rw [hp4, bind_ok_reduce]
    obtain ⟨e6, he6⟩ := secondCandidateNote_valid_ok (.valid c) cs
    rw [he6, bind_ok_reduce]
    obtain ⟨d, hd, hdl, hdc⟩ := mkDiagnosisChecked_valid_ok
      (p1.1 ++ (settlementCheck _ _).1 ++ p3.1 ++ p4.1) _ c r
      ((PyCandidate.valid c :: cs.map .valid).length)
      (p1.1 ++ (settlementCheck _ _).1 ++ p3.1 ++ p4.1)
    refine ⟨d, ?_, ?_⟩
    · exact hd
    · rw [hdc, hdl]
      simp [List.length_map, Nat.add_comm]
  obtain ⟨d, hd, hconf⟩ := hbody
  refine ⟨d, ?_, hconf⟩
  simp only [diagnose]
  rw [hms (c :: cs), hd]

/-- C7: on a non-empty list of genuine candidates, the returned confidence
is the specification's calibration formula — the top candidate's overall
confidence minus the extraction-quality, ambiguity and compound-complexity
penalties, plus the clean-match bonus, clamped to `[0, 100]` and rounded to
one decimal — applied to the candidate count and the number of fired labels. -/
theorem diagnose_confidence_calibrated :
    ∀ (c : MatchCandidate) (cs : List MatchCandidate) (r : Option ReceiptData),
      diagConfidence (.ofList ((c :: cs).map (fun v => some (.valid v)))) r =
        some (specConfidenceFormula c.overall_confidence r (cs.length + 1)
          (diagLabels (.ofList ((c :: cs).map (fun v => some (.valid v)))) r).length) := by
  intro c cs r
  obtain ⟨d, hd, hconf⟩ := diagnose_valid_ok c cs r
  unfold diagConfidence diagLabels
  rw [hd]
  show some d.confidence = some (specConfidenceFormula c.overall_confidence r
    (cs.length + 1) d.labels.length)
  rw [hconf, calibrate_eq_spec]

end Recon
